import Mathlib

/-!
Formal model of the errs package (src/errs.go): a structured error wrapper
for an HTTP service.

Modelling conventions:
- A Go map[string]string is modelled as an association list (SMap) whose
  write operation overwrites an existing binding of the key and otherwise
  appends a fresh binding. A nil Go map is Option.none.
- The Go error interface is modelled by the inductive type GoError. The
  nil constructor is the nil interface value; the wrapper constructor
  carries the five fields of the ErrorWrapper struct; the foreign
  constructor stands for any error value defined outside this package,
  carrying its rendered string and its unwrapped cause (nil when the
  foreign error does not unwrap further). Inductive values are finite, so
  every cause chain in the model is finite and acyclic, matching the
  documented precondition of the package.
- The stdlib call errors.As(e, &ew) with an ErrorWrapper target is
  modelled by errorsAs: it walks the unwrap chain of e and returns the
  first value whose dynamic type is ErrorWrapper.
- Methods with a pointer receiver (AddPayloadValue, AddPayloadValues) are
  modelled as functions returning the updated wrapper.
-/

/-- A Go map from strings to strings, as an association list. -/
abbrev SMap := List (String × String)

/-- Models the Go map read m[k]; none when the key is absent. -/
def mapGet : SMap → String → Option String
  | [], _ => none
  | (k2, v) :: rest, k => if k2 = k then some v else mapGet rest k

/-- Whether the key is bound in the map. -/
def mapHasKey : SMap → String → Bool
  | [], _ => false
  | (k2, _) :: rest, k => if k2 = k then true else mapHasKey rest k

/-- Replaces every binding of k by (k, v), leaving other bindings alone. -/
def mapSet : SMap → String → String → SMap
  | [], _, _ => []
  | (k2, v2) :: rest, k, v =>
    if k2 = k then (k, v) :: mapSet rest k v else (k2, v2) :: mapSet rest k v

/-- Models the Go map write m[k] = v: overwrite when present, else add. -/
def mapInsert (m : SMap) (k v : String) : SMap :=
  if mapHasKey m k then mapSet m k v else m ++ [(k, v)]

/-- The Go error interface: the nil interface value, an ErrorWrapper of
this package (carrying its five struct fields), or a foreign error with
its rendered string and its cause. -/
inductive GoError where
  | nil
  | wrapper (action message : String) (payload : Option SMap) (code : Int) (err : GoError)
  | foreign (msg : String) (cause : GoError)
deriving DecidableEq

/-- The ErrorWrapper struct of src/errs.go. The json tags that exclude
Code and Err from marshaling do not affect the semantics modelled here. -/
structure ErrorWrapper where
  Action : String
  Message : String
  Payload : Option SMap
  Code : Int
  Err : GoError
deriving DecidableEq

/-- An ErrorWrapper viewed as a (non-nil) Go error interface value. -/
def GoError.ofWrapper (w : ErrorWrapper) : GoError :=
  .wrapper w.Action w.Message w.Payload w.Code w.Err

/-- Whether the dynamic type of the error value is ErrorWrapper. -/
def GoError.isWrapper : GoError → Bool
  | .wrapper _ _ _ _ _ => true
  | _ => false

/-- Calling the Error() method of the Go error interface. On a wrapper
this is the Error method of src/errs.go lines 19-26; on a foreign error
it is its rendered string. Go panics when the receiver is the nil
interface value; the modelled code paths only reach that case from
DecodeError applied to nil, which the theorems exclude. -/
def GoError.Error : GoError → String
  | .nil => ""
  | .foreign s _ => s
  | .wrapper _ m _ _ e =>
    match e with
    | .nil => m
    | e2 => GoError.Error e2

/-- Error method, src/errs.go lines 19-26: the rendered string of the
cause when one is present, otherwise the own Message. The nil guard of
the source is the match on nil. -/
def ErrorWrapper.Error (w : ErrorWrapper) : String :=
  match w.Err with
  | .nil => w.Message
  | e => e.Error

/-- Unwrap method, src/errs.go lines 29-31: returns the inner error. -/
def ErrorWrapper.Unwrap (w : ErrorWrapper) : GoError :=
  w.Err

/-- The unwrap chain of an error value: the value itself, then the chain
of its cause. This is the sequence of values that the stdlib functions
errors.As and errors.Is traverse; it is empty on the nil interface
value. -/
def GoError.chain : GoError → List GoError
  | .nil => []
  | .wrapper a m p c e => .wrapper a m p c e :: e.chain
  | .foreign s c => .foreign s c :: c.chain

/-- Models errors.As(e, &ew) with ew an ErrorWrapper: walks the unwrap
chain of e and yields the first value whose dynamic type is ErrorWrapper,
as that wrapper; none when the chain holds no such value. -/
def errorsAs : GoError → Option ErrorWrapper
  | .nil => none
  | .wrapper a m p c e => some ⟨a, m, p, c, e⟩
  | .foreign _ c => errorsAs c

/-- Size of an error value, bounding the length of its unwrap chain. -/
def GoError.size : GoError → Nat
  | .nil => 0
  | .wrapper _ _ _ _ e => e.size + 1
  | .foreign _ c => c.size + 1

theorem errorsAs_size (e : GoError) (w : ErrorWrapper)
    (h : errorsAs e = some w) : w.Err.size < e.size := by
  induction e with
  | nil => simp [errorsAs] at h
  | wrapper a m p c err =>
    simp [errorsAs] at h
    subst h
    simp [GoError.size]
  | foreign s cause ih =>
    simp [errorsAs] at h
    exact Nat.lt_trans (ih h) (by simp [GoError.size])

/-- Dig method, src/errs.go lines 34-43: recursively extracts the next
ErrorWrapper from the cause chain until none is found, returning the last
wrapper reached. -/
def ErrorWrapper.Dig (w : ErrorWrapper) : ErrorWrapper :=
  match h : errorsAs w.Err with
  | some ew => ew.Dig
  | none => w
termination_by w.Err.size
decreasing_by exact errorsAs_size _ _ h

theorem ErrorWrapper.Dig_none (w : ErrorWrapper)
    (h : errorsAs w.Err = none) : w.Dig = w := by
  rw [ErrorWrapper.Dig, h]

theorem ErrorWrapper.Dig_some (w ew : ErrorWrapper)
    (h : errorsAs w.Err = some ew) : w.Dig = ew.Dig := by
  rw [ErrorWrapper.Dig, h]

/-- AddPayloadValue method, src/errs.go lines 46-52: initializes the
payload map with a single entry when it is nil, otherwise writes the
key. -/
def ErrorWrapper.AddPayloadValue (w : ErrorWrapper) (key value : String) : ErrorWrapper :=
  match w.Payload with
  | none => { w with Payload := some [(key, value)] }
  | some m => { w with Payload := some (mapInsert m key value) }

/-- AddPayloadValues method, src/errs.go lines 55-63: assigns the incoming
map when the payload is nil, otherwise writes every incoming entry. -/
def ErrorWrapper.AddPayloadValues (w : ErrorWrapper) (values : SMap) : ErrorWrapper :=
  match w.Payload with
  | none => { w with Payload := some values }
  | some m => { w with Payload := some (values.foldl (fun acc kv => mapInsert acc kv.1 kv.2) m) }

/-- AsJSONResponse method, src/errs.go lines 66-71: the two-entry map
holding action and message. -/
def ErrorWrapper.AsJSONResponse (w : ErrorWrapper) : SMap :=
  [("action", w.Action), ("message", w.Message)]

/-- DecodeError, src/errs.go lines 74-88: the first ErrorWrapper of the
unwrap chain, or a generic one built around the given error. -/
def DecodeError (err : GoError) : ErrorWrapper :=
  match errorsAs err with
  | some ew => ew
  | none =>
    { Action := "generic"
      Message := err.Error
      Payload := none
      Code := 500
      Err := err }

/-- NewErrorWrapper, src/errs.go lines 91-112: builds the struct from the
arguments, then writes the code and human_message payload entries. The Go
function returns the wrapper as an error interface value. -/
def NewErrorWrapper (action message : String) (code : Int) (err : GoError)
    (payload : Option SMap) : ErrorWrapper :=
  let ew : ErrorWrapper :=
    { Action := action
      Message := message
      Code := code
      Err := err
      Payload := payload }
  ew.AddPayloadValues [("code", toString code), ("human_message", message)]

/-- NewBadRequestError, src/errs.go lines 115-136. -/
def NewBadRequestError (action message : String) (err : GoError)
    (payload : Option SMap) : ErrorWrapper :=
  let code : Int := 400
  let ew : ErrorWrapper :=
    { Action := action
      Message := message
      Code := code
      Err := err
      Payload := payload }
  ew.AddPayloadValues [("code", toString code), ("human_message", message)]

/-- NewUnauthorizedError, src/errs.go lines 139-160. -/
def NewUnauthorizedError (action message : String) (err : GoError)
    (payload : Option SMap) : ErrorWrapper :=
  let code : Int := 401
  let ew : ErrorWrapper :=
    { Action := action
      Message := message
      Code := code
      Err := err
      Payload := payload }
  ew.AddPayloadValues [("code", toString code), ("human_message", message)]

/-- NewPaymentRequiredError, src/errs.go lines 163-184. -/
def NewPaymentRequiredError (action message : String) (err : GoError)
    (payload : Option SMap) : ErrorWrapper :=
  let code : Int := 402
  let ew : ErrorWrapper :=
    { Action := action
      Message := message
      Code := code
      Err := err
      Payload := payload }
  ew.AddPayloadValues [("code", toString code), ("human_message", message)]

/-- NewForbiddenError, src/errs.go lines 187-208. -/
def NewForbiddenError (action message : String) (err : GoError)
    (payload : Option SMap) : ErrorWrapper :=
  let code : Int := 403
  let ew : ErrorWrapper :=
    { Action := action
      Message := message
      Code := code
      Err := err
      Payload := payload }
  ew.AddPayloadValues [("code", toString code), ("human_message", message)]

/-- NewNotFoundError, src/errs.go lines 211-232. -/
def NewNotFoundError (action message : String) (err : GoError)
    (payload : Option SMap) : ErrorWrapper :=
  let code : Int := 404
  let ew : ErrorWrapper :=
    { Action := action
      Message := message
      Code := code
      Err := err
      Payload := payload }
  ew.AddPayloadValues [("code", toString code), ("human_message", message)]

/-- NewUnprocessableEntityError, src/errs.go lines 235-256. -/
def NewUnprocessableEntityError (action message : String) (err : GoError)
    (payload : Option SMap) : ErrorWrapper :=
  let code : Int := 422
  let ew : ErrorWrapper :=
    { Action := action
      Message := message
      Code := code
      Err := err
      Payload := payload }
  ew.AddPayloadValues [("code", toString code), ("human_message", message)]

/-- NewInternalServerError, src/errs.go lines 259-280. -/
def NewInternalServerError (action message : String) (err : GoError)
    (payload : Option SMap) : ErrorWrapper :=
  let code : Int := 500
  let ew : ErrorWrapper :=
    { Action := action
      Message := message
      Code := code
      Err := err
      Payload := payload }
  ew.AddPayloadValues [("code", toString code), ("human_message", message)]

/-- NewNotImplementedError, src/errs.go lines 283-304. -/
def NewNotImplementedError (action message : String) (err : GoError)
    (payload : Option SMap) : ErrorWrapper :=
  let code : Int := 501
  let ew : ErrorWrapper :=
    { Action := action
      Message := message
      Code := code
      Err := err
      Payload := payload }
  ew.AddPayloadValues [("code", toString code), ("human_message", message)]

/-- NewBadGatewayError, src/errs.go lines 307-328. -/
def NewBadGatewayError (action message : String) (err : GoError)
    (payload : Option SMap) : ErrorWrapper :=
  let code : Int := 502
  let ew : ErrorWrapper :=
    { Action := action
      Message := message
      Code := code
      Err := err
      Payload := payload }
  ew.AddPayloadValues [("code", toString code), ("human_message", message)]

/-- NewServiceUnavailableError, src/errs.go lines 331-352. -/
def NewServiceUnavailableError (action message : String) (err : GoError)
    (payload : Option SMap) : ErrorWrapper :=
  let code : Int := 503
  let ew : ErrorWrapper :=
    { Action := action
      Message := message
      Code := code
      Err := err
      Payload := payload }
  ew.AddPayloadValues [("code", toString code), ("human_message", message)]

/-- NewGatewayTimeoutError, src/errs.go lines 355-376. -/
def NewGatewayTimeoutError (action message : String) (err : GoError)
    (payload : Option SMap) : ErrorWrapper :=
  let code : Int := 504
  let ew : ErrorWrapper :=
    { Action := action
      Message := message
      Code := code
      Err := err
      Payload := payload }
  ew.AddPayloadValues [("code", toString code), ("human_message", message)]

/-- Fuel-indexed unfolding of Dig, used to bound its recursion depth. -/
def digFuel : Nat → ErrorWrapper → Option ErrorWrapper
  | 0, _ => none
  | n + 1, w =>
    match errorsAs w.Err with
    | some ew => digFuel n ew
    | none => some w

/-- Convenience read of a payload key of a wrapper; none on a nil
payload. -/
def payloadGet (w : ErrorWrapper) (k : String) : Option String :=
  match w.Payload with
  | none => none
  | some m => mapGet m k

/-- Number of entries of the payload of a wrapper. -/
def payloadSize (w : ErrorWrapper) : Nat :=
  match w.Payload with
  | none => 0
  | some m => m.length

theorem mapGet_mapSet_self (m : SMap) (k v : String) (h : mapHasKey m k = true) :
    mapGet (mapSet m k v) k = some v := by
  induction m with
  | nil => simp [mapHasKey] at h
  | cons kv rest ih =>
    obtain ⟨k2, v2⟩ := kv
    by_cases hk : k2 = k
    · simp [mapSet, hk, mapGet]
    · simp [mapHasKey, hk] at h
      simp [mapSet, hk, mapGet, ih h]

theorem mapGet_mapSet_ne (m : SMap) (k v k2 : String) (h : k2 ≠ k) :
    mapGet (mapSet m k v) k2 = mapGet m k2 := by
  induction m with
  | nil => simp [mapSet]
  | cons kv rest ih =>
    obtain ⟨k3, v3⟩ := kv
    by_cases hk : k3 = k
    · subst hk
      simp [mapSet, mapGet, Ne.symm h, ih]
    · simp [mapSet, hk, mapGet, ih]

theorem mapGet_append_of_not_hasKey (m l : SMap) (k : String)
    (h : mapHasKey m k = false) : mapGet (m ++ l) k = mapGet l k := by
  induction m with
  | nil => simp
  | cons kv rest ih =>
    obtain ⟨k2, v2⟩ := kv
    by_cases hk : k2 = k
    · simp [mapHasKey, hk] at h
    · simp [mapHasKey, hk] at h
      simp [mapGet, hk, ih h]

theorem mapGet_mapInsert_self (m : SMap) (k v : String) :
    mapGet (mapInsert m k v) k = some v := by
  unfold mapInsert
  cases h : mapHasKey m k with
  | true => simp [mapGet_mapSet_self m k v h]
  | false =>
    simp [mapGet_append_of_not_hasKey m _ k h, mapGet]

theorem mapGet_mapInsert_ne (m : SMap) (k v k2 : String) (h : k2 ≠ k) :
    mapGet (mapInsert m k v) k2 = mapGet m k2 := by
  unfold mapInsert
  cases hk : mapHasKey m k with
  | true => simp [mapGet_mapSet_ne m k v k2 h]
  | false =>
    simp only [Bool.false_eq_true, if_false]
    induction m with
    | nil => simp [mapGet, Ne.symm h]
    | cons kv rest ih =>
      obtain ⟨k3, v3⟩ := kv
      by_cases hk3 : k3 = k2
      · simp [mapGet, hk3]
      · simp [mapHasKey] at hk
        simp [mapGet, hk3, ih hk.2]

theorem mapSet_length (m : SMap) (k v : String) :
    (mapSet m k v).length = m.length := by
  induction m with
  | nil => simp [mapSet]
  | cons kv rest ih =>
    obtain ⟨k2, v2⟩ := kv
    by_cases hk : k2 = k <;> simp [mapSet, hk, ih]

theorem mapHasKey_mapSet_self (m : SMap) (k v : String) (h : mapHasKey m k = true) :
    mapHasKey (mapSet m k v) k = true := by
  induction m with
  | nil => simp [mapHasKey] at h
  | cons kv rest ih =>
    obtain ⟨k2, v2⟩ := kv
    by_cases hk : k2 = k
    · simp [mapSet, hk, mapHasKey]
    · simp [mapHasKey, hk] at h
      simp [mapSet, hk, mapHasKey, ih h]

theorem mapHasKey_append_single (m : SMap) (k v : String) :
    mapHasKey (m ++ [(k, v)]) k = true := by
  induction m with
  | nil => simp [mapHasKey]
  | cons kv rest ih =>
    obtain ⟨k2, v2⟩ := kv
    by_cases hk : k2 = k <;> simp [mapHasKey, hk, ih]

theorem mapHasKey_mapInsert_self (m : SMap) (k v : String) :
    mapHasKey (mapInsert m k v) k = true := by
  unfold mapInsert
  cases h : mapHasKey m k with
  | true => simp [mapHasKey_mapSet_self m k v h]
  | false => simp [mapHasKey_append_single]

theorem mapInsert_length_of_hasKey (m : SMap) (k v : String)
    (h : mapHasKey m k = true) : (mapInsert m k v).length = m.length := by
  simp [mapInsert, h, mapSet_length]

theorem goError_Error_ofWrapper (w : ErrorWrapper) :
    (GoError.ofWrapper w).Error = w.Error := by
  cases hw : w.Err <;> simp [GoError.ofWrapper, GoError.Error, ErrorWrapper.Error, hw]

/-- C6: Error() returns the rendered string of the cause verbatim when a
cause is present, and the own message when no cause is present; it is
total (never panics), because the absent-cause case is guarded before the
cause is dereferenced. -/
theorem error_method_spec (w : ErrorWrapper) :
    (w.Err ≠ .nil → w.Error = w.Err.Error) ∧
    (w.Err = .nil → w.Error = w.Message) := by
  constructor
  · intro h
    cases hw : w.Err with
    | nil => exact absurd hw h
    | wrapper a m p c e => simp [ErrorWrapper.Error, hw]
    | foreign s c => simp [ErrorWrapper.Error, hw]
  · intro h
    simp [ErrorWrapper.Error, h]

/-- Witness for C6 at concrete inputs: one wrapper with a foreign cause,
one with no cause. -/
theorem error_method_spec_witness :
    (ErrorWrapper.mk "a" "m" none 500 (.foreign "boom" .nil)).Error = "boom" ∧
    (ErrorWrapper.mk "a" "m" none 500 .nil).Error = "m" := by
  constructor
  · exact (error_method_spec ⟨"a", "m", none, 500, .foreign "boom" .nil⟩).1 (by decide)
  · exact (error_method_spec ⟨"a", "m", none, 500, .nil⟩).2 rfl

/-- C10: the payload mutators touch only the Payload field; Action,
Message, Code and Err are unchanged by AddPayloadValue and by
AddPayloadValues. -/
theorem addPayload_frame (w : ErrorWrapper) (k v : String) (vs : SMap) :
    (w.AddPayloadValue k v).Action = w.Action ∧
    (w.AddPayloadValue k v).Message = w.Message ∧
    (w.AddPayloadValue k v).Code = w.Code ∧
    (w.AddPayloadValue k v).Err = w.Err ∧
    (w.AddPayloadValues vs).Action = w.Action ∧
    (w.AddPayloadValues vs).Message = w.Message ∧
    (w.AddPayloadValues vs).Code = w.Code ∧
    (w.AddPayloadValues vs).Err = w.Err := by
  cases hp : w.Payload <;>
    simp [ErrorWrapper.AddPayloadValue, ErrorWrapper.AddPayloadValues, hp]

/-- C9: AsJSONResponse yields exactly the two keys action and message,
bound to the corresponding fields, on every wrapper and in particular on
the output of every constructor variant. -/
theorem asJSONResponse_spec (w : ErrorWrapper) (a m : String) (c : Int)
    (e : GoError) (p : Option SMap) :
    (w.AsJSONResponse).map Prod.fst = ["action", "message"] ∧
    mapGet w.AsJSONResponse "action" = some w.Action ∧
    mapGet w.AsJSONResponse "message" = some w.Message ∧
    (NewErrorWrapper a m c e p).AsJSONResponse = [("action", a), ("message", m)] ∧
    (NewBadRequestError a m e p).AsJSONResponse = [("action", a), ("message", m)] ∧
    (NewUnauthorizedError a m e p).AsJSONResponse = [("action", a), ("message", m)] ∧
    (NewPaymentRequiredError a m e p).AsJSONResponse = [("action", a), ("message", m)] ∧
    (NewForbiddenError a m e p).AsJSONResponse = [("action", a), ("message", m)] ∧
    (NewNotFoundError a m e p).AsJSONResponse = [("action", a), ("message", m)] ∧
    (NewUnprocessableEntityError a m e p).AsJSONResponse = [("action", a), ("message", m)] ∧
    (NewInternalServerError a m e p).AsJSONResponse = [("action", a), ("message", m)] ∧
    (NewNotImplementedError a m e p).AsJSONResponse = [("action", a), ("message", m)] ∧
    (NewBadGatewayError a m e p).AsJSONResponse = [("action", a), ("message", m)] ∧
    (NewServiceUnavailableError a m e p).AsJSONResponse = [("action", a), ("message", m)] ∧
    (NewGatewayTimeoutError a m e p).AsJSONResponse = [("action", a), ("message", m)] := by
  cases p <;>
    exact ⟨rfl, rfl, rfl, rfl, rfl, rfl, rfl, rfl, rfl, rfl, rfl, rfl, rfl, rfl, rfl⟩

/-- C4: every named per-status constructor equals the generic builder at
its documented status code, for all arguments, and the code field of its
output is the documented literal. -/
theorem named_constructors_spec (a m : String) (e : GoError) (p : Option SMap) :
    (NewBadRequestError a m e p = NewErrorWrapper a m 400 e p ∧
      (NewBadRequestError a m e p).Code = 400) ∧
    (NewUnauthorizedError a m e p = NewErrorWrapper a m 401 e p ∧
      (NewUnauthorizedError a m e p).Code = 401) ∧
    (NewPaymentRequiredError a m e p = NewErrorWrapper a m 402 e p ∧
      (NewPaymentRequiredError a m e p).Code = 402) ∧
    (NewForbiddenError a m e p = NewErrorWrapper a m 403 e p ∧
      (NewForbiddenError a m e p).Code = 403) ∧
    (NewNotFoundError a m e p = NewErrorWrapper a m 404 e p ∧
      (NewNotFoundError a m e p).Code = 404) ∧
    (NewUnprocessableEntityError a m e p = NewErrorWrapper a m 422 e p ∧
      (NewUnprocessableEntityError a m e p).Code = 422) ∧
    (NewInternalServerError a m e p = NewErrorWrapper a m 500 e p ∧
      (NewInternalServerError a m e p).Code = 500) ∧
    (NewNotImplementedError a m e p = NewErrorWrapper a m 501 e p ∧
      (NewNotImplementedError a m e p).Code = 501) ∧
    (NewBadGatewayError a m e p = NewErrorWrapper a m 502 e p ∧
      (NewBadGatewayError a m e p).Code = 502) ∧
    (NewServiceUnavailableError a m e p = NewErrorWrapper a m 503 e p ∧
      (NewServiceUnavailableError a m e p).Code = 503) ∧
    (NewGatewayTimeoutError a m e p = NewErrorWrapper a m 504 e p ∧
      (NewGatewayTimeoutError a m e p).Code = 504) := by
  cases p <;>
    exact ⟨⟨rfl, rfl⟩, ⟨rfl, rfl⟩, ⟨rfl, rfl⟩, ⟨rfl, rfl⟩, ⟨rfl, rfl⟩, ⟨rfl, rfl⟩,
      ⟨rfl, rfl⟩, ⟨rfl, rfl⟩, ⟨rfl, rfl⟩, ⟨rfl, rfl⟩, ⟨rfl, rfl⟩⟩

theorem newErrorWrapper_code_hm (a m : String) (c : Int) (e : GoError)
    (p : Option SMap) :
    payloadGet (NewErrorWrapper a m c e p) "code" = some (toString c) ∧
    payloadGet (NewErrorWrapper a m c e p) "human_message" = some m := by
  cases p with
  | none => exact ⟨rfl, rfl⟩
  | some m0 =>
    constructor
    · show mapGet (mapInsert (mapInsert m0 "code" (toString c)) "human_message" m)
        "code" = some (toString c)
      rw [mapGet_mapInsert_ne _ _ _ _ (by decide)]
      exact mapGet_mapInsert_self _ _ _
    · show mapGet (mapInsert (mapInsert m0 "code" (toString c)) "human_message" m)
        "human_message" = some m
      exact mapGet_mapInsert_self _ _ _

/-- C2: every constructor leaves the payload holding code bound to the
decimal string of the status code of the instance and human_message bound
to the message argument, whatever payload the caller supplied. -/
theorem constructors_payload_spec (a m : String) (c : Int) (e : GoError)
    (p : Option SMap) :
    (payloadGet (NewErrorWrapper a m c e p) "code" = some (toString c) ∧
      payloadGet (NewErrorWrapper a m c e p) "human_message" = some m) ∧
    (payloadGet (NewBadRequestError a m e p) "code" = some "400" ∧
      payloadGet (NewBadRequestError a m e p) "human_message" = some m) ∧
    (payloadGet (NewUnauthorizedError a m e p) "code" = some "401" ∧
      payloadGet (NewUnauthorizedError a m e p) "human_message" = some m) ∧
    (payloadGet (NewPaymentRequiredError a m e p) "code" = some "402" ∧
      payloadGet (NewPaymentRequiredError a m e p) "human_message" = some m) ∧
    (payloadGet (NewForbiddenError a m e p) "code" = some "403" ∧
      payloadGet (NewForbiddenError a m e p) "human_message" = some m) ∧
    (payloadGet (NewNotFoundError a m e p) "code" = some "404" ∧
      payloadGet (NewNotFoundError a m e p) "human_message" = some m) ∧
    (payloadGet (NewUnprocessableEntityError a m e p) "code" = some "422" ∧
      payloadGet (NewUnprocessableEntityError a m e p) "human_message" = some m) ∧
    (payloadGet (NewInternalServerError a m e p) "code" = some "500" ∧
      payloadGet (NewInternalServerError a m e p) "human_message" = some m) ∧
    (payloadGet (NewNotImplementedError a m e p) "code" = some "501" ∧
      payloadGet (NewNotImplementedError a m e p) "human_message" = some m) ∧
    (payloadGet (NewBadGatewayError a m e p) "code" = some "502" ∧
      payloadGet (NewBadGatewayError a m e p) "human_message" = some m) ∧
    (payloadGet (NewServiceUnavailableError a m e p) "code" = some "503" ∧
      payloadGet (NewServiceUnavailableError a m e p) "human_message" = some m) ∧
    (payloadGet (NewGatewayTimeoutError a m e p) "code" = some "504" ∧
      payloadGet (NewGatewayTimeoutError a m e p) "human_message" = some m) :=
  ⟨newErrorWrapper_code_hm a m c e p,
    newErrorWrapper_code_hm a m 400 e p,
    newErrorWrapper_code_hm a m 401 e p,
    newErrorWrapper_code_hm a m 402 e p,
    newErrorWrapper_code_hm a m 403 e p,
    newErrorWrapper_code_hm a m 404 e p,
    newErrorWrapper_code_hm a m 422 e p,
    newErrorWrapper_code_hm a m 500 e p,
    newErrorWrapper_code_hm a m 501 e p,
    newErrorWrapper_code_hm a m 502 e p,
    newErrorWrapper_code_hm a m 503 e p,
    newErrorWrapper_code_hm a m 504 e p⟩

/-- Counterexample to C3 as stated: the caller binds code to 999, yet the
constructed payload holds 400 on that key, because the constructor writes
its two entries after the caller-supplied map, not before. -/
theorem caller_payload_overridden_cex :
    payloadGet (NewErrorWrapper "act" "msg" 400 .nil
      (some [("code", "999"), ("human_message", "mine")])) "code" = some "400" ∧
    payloadGet (NewErrorWrapper "act" "msg" 400 .nil
      (some [("code", "999"), ("human_message", "mine")])) "human_message" = some "msg" ∧
    (some "400" : Option String) ≠ some "999" ∧
    (some "msg" : Option String) ≠ some "mine" := by
  exact ⟨rfl, rfl, by decide, by decide⟩

theorem newErrorWrapper_other_key (a m : String) (c : Int) (e : GoError)
    (p : SMap) (k : String) (h1 : k ≠ "code") (h2 : k ≠ "human_message") :
    payloadGet (NewErrorWrapper a m c e (some p)) k = mapGet p k := by
  show mapGet (mapInsert (mapInsert p "code" (toString c)) "human_message" m) k
    = mapGet p k
  rw [mapGet_mapInsert_ne _ _ _ _ h2, mapGet_mapInsert_ne _ _ _ _ h1]

/-- C3 amended: the always-present code and human_message entries are
written after the caller-supplied payload, so on those two keys the value
written by the constructor wins over a colliding caller entry, while every
caller entry under any other key is preserved, for every constructor. -/
theorem constructor_wins_on_reserved_keys (a m : String) (c : Int)
    (e : GoError) (p : SMap) (k : String)
    (h1 : k ≠ "code") (h2 : k ≠ "human_message") :
    payloadGet (NewErrorWrapper a m c e (some p)) "code" = some (toString c) ∧
    payloadGet (NewErrorWrapper a m c e (some p)) "human_message" = some m ∧
    payloadGet (NewErrorWrapper a m c e (some p)) k = mapGet p k ∧
    payloadGet (NewBadRequestError a m e (some p)) k = mapGet p k ∧
    payloadGet (NewUnauthorizedError a m e (some p)) k = mapGet p k ∧
    payloadGet (NewPaymentRequiredError a m e (some p)) k = mapGet p k ∧
    payloadGet (NewForbiddenError a m e (some p)) k = mapGet p k ∧
    payloadGet (NewNotFoundError a m e (some p)) k = mapGet p k ∧
    payloadGet (NewUnprocessableEntityError a m e (some p)) k = mapGet p k ∧
    payloadGet (NewInternalServerError a m e (some p)) k = mapGet p k ∧
    payloadGet (NewNotImplementedError a m e (some p)) k = mapGet p k ∧
    payloadGet (NewBadGatewayError a m e (some p)) k = mapGet p k ∧
    payloadGet (NewServiceUnavailableError a m e (some p)) k = mapGet p k ∧
    payloadGet (NewGatewayTimeoutError a m e (some p)) k = mapGet p k :=
  ⟨(newErrorWrapper_code_hm a m c e (some p)).1,
    (newErrorWrapper_code_hm a m c e (some p)).2,
    newErrorWrapper_other_key a m c e p k h1 h2,
    newErrorWrapper_other_key a m 400 e p k h1 h2,
    newErrorWrapper_other_key a m 401 e p k h1 h2,
    newErrorWrapper_other_key a m 402 e p k h1 h2,
    newErrorWrapper_other_key a m 403 e p k h1 h2,
    newErrorWrapper_other_key a m 404 e p k h1 h2,
    newErrorWrapper_other_key a m 422 e p k h1 h2,
    newErrorWrapper_other_key a m 500 e p k h1 h2,
    newErrorWrapper_other_key a m 501 e p k h1 h2,
    newErrorWrapper_other_key a m 502 e p k h1 h2,
    newErrorWrapper_other_key a m 503 e p k h1 h2,
    newErrorWrapper_other_key a m 504 e p k h1 h2⟩

/-- Witness for the amended C3 at a concrete input. -/
theorem constructor_wins_on_reserved_keys_witness :
    payloadGet (NewErrorWrapper "act" "msg" 403 .nil (some [("x", "1")])) "code"
      = some "403" ∧
    payloadGet (NewErrorWrapper "act" "msg" 403 .nil (some [("x", "1")])) "x"
      = some "1" := by
  have h := constructor_wins_on_reserved_keys "act" "msg" 403 .nil
    [("x", "1")] "x" (by decide) (by decide)
  exact ⟨h.1, h.2.2.1⟩

/-- C7: AddPayloadValue on a nil payload initializes it with exactly the
one given entry; a second write under the same key overwrites the value
(last write wins) without growing the map. -/
theorem addPayloadValue_spec (w : ErrorWrapper) (k v v2 : String) :
    (w.Payload = none → (w.AddPayloadValue k v).Payload = some [(k, v)]) ∧
    payloadGet ((w.AddPayloadValue k v).AddPayloadValue k v2) k = some v2 ∧
    payloadSize ((w.AddPayloadValue k v).AddPayloadValue k v2)
      = payloadSize (w.AddPayloadValue k v) := by
  refine ⟨fun h => by simp [ErrorWrapper.AddPayloadValue, h], ?_, ?_⟩
  · cases hp : w.Payload with
    | none =>
      simp [ErrorWrapper.AddPayloadValue, hp, payloadGet]
      exact mapGet_mapInsert_self _ _ _
    | some m0 =>
      simp [ErrorWrapper.AddPayloadValue, hp, payloadGet]
      exact mapGet_mapInsert_self _ _ _
  · cases hp : w.Payload with
    | none =>
      simp [ErrorWrapper.AddPayloadValue, hp, payloadSize]
      exact mapInsert_length_of_hasKey _ _ _ (by simp [mapHasKey])
    | some m0 =>
      simp [ErrorWrapper.AddPayloadValue, hp, payloadSize]
      exact mapInsert_length_of_hasKey _ _ _ (mapHasKey_mapInsert_self m0 k v)

/-- Witness for C7 at a concrete input: nil payload initialized with one
entry, and a same-key rewrite keeping the single entry with the second
value. -/
theorem addPayloadValue_spec_witness :
    ((ErrorWrapper.mk "a" "m" none 500 .nil).AddPayloadValue "k" "v1").Payload
      = some [("k", "v1")] ∧
    payloadGet (((ErrorWrapper.mk "a" "m" none 500 .nil).AddPayloadValue "k"
      "v1").AddPayloadValue "k" "v2") "k" = some "v2" ∧
    payloadSize (((ErrorWrapper.mk "a" "m" none 500 .nil).AddPayloadValue "k"
      "v1").AddPayloadValue "k" "v2") = 1 := by
  have h := addPayloadValue_spec ⟨"a", "m", none, 500, .nil⟩ "k" "v1" "v2"
  exact ⟨h.1 rfl, h.2.1, by rw [h.2.2]; rfl⟩

theorem errorsAs_eq_none_of_no_wrapper (e : GoError)
    (h : (e.chain.all fun x => ! x.isWrapper) = true) : errorsAs e = none := by
  induction e with
  | nil => rfl
  | wrapper a m p c err ih => simp [GoError.chain, GoError.isWrapper] at h
  | foreign s c ih =>
    simp only [GoError.chain, List.all_cons, Bool.and_eq_true] at h
    exact ih h.2

/-- C5 amended: Dig on a wrapper with no cause is the wrapper itself; Dig
on a wrapper whose cause is a foreign error with no wrapper anywhere in
its unwrap chain is the wrapper itself; Dig on a three-level chain of
wrappers is the innermost wrapper. -/
theorem dig_spec (w : ErrorWrapper) :
    (w.Err = .nil → w.Dig = w) ∧
    (∀ s c, w.Err = .foreign s c →
      ((GoError.foreign s c).chain.all fun x => ! x.isWrapper) = true →
      w.Dig = w) ∧
    (∀ a2 m2 p2 c2 a3 m3 p3 c3,
      w.Err = .wrapper a2 m2 p2 c2 (.wrapper a3 m3 p3 c3 .nil) →
      w.Dig = ⟨a3, m3, p3, c3, .nil⟩) := by
  refine ⟨?_, ?_, ?_⟩
  · intro h
    exact w.Dig_none (by rw [h]; rfl)
  · intro s c hw hall
    refine w.Dig_none ?_
    rw [hw]
    exact errorsAs_eq_none_of_no_wrapper _ hall
  · intro a2 m2 p2 c2 a3 m3 p3 c3 hw
    rw [w.Dig_some ⟨a2, m2, p2, c2, .wrapper a3 m3 p3 c3 .nil⟩ (by rw [hw]; rfl)]
    rw [ErrorWrapper.Dig_some ⟨a2, m2, p2, c2, .wrapper a3 m3 p3 c3 .nil⟩
      ⟨a3, m3, p3, c3, .nil⟩ rfl]
    exact ErrorWrapper.Dig_none _ rfl

/-- Witness for the amended C5 at concrete inputs: no cause, an opaque
foreign cause, and a three-level wrapper chain. -/
theorem dig_spec_witness :
    (ErrorWrapper.mk "a" "m" none 500 .nil).Dig
      = ErrorWrapper.mk "a" "m" none 500 .nil ∧
    (ErrorWrapper.mk "a" "m" none 500 (.foreign "io" .nil)).Dig
      = ErrorWrapper.mk "a" "m" none 500 (.foreign "io" .nil) ∧
    (ErrorWrapper.mk "w1" "m1" none 500
        (.wrapper "w2" "m2" none 401 (.wrapper "w3" "m3" none 402 .nil))).Dig
      = ErrorWrapper.mk "w3" "m3" none 402 .nil := by
  refine ⟨?_, ?_, ?_⟩
  · exact (dig_spec ⟨"a", "m", none, 500, .nil⟩).1 rfl
  · exact (dig_spec ⟨"a", "m", none, 500, .foreign "io" .nil⟩).2.1 "io" .nil rfl
      (by decide)
  · exact (dig_spec ⟨"w1", "m1", none, 500,
      .wrapper "w2" "m2" none 401 (.wrapper "w3" "m3" none 402 .nil)⟩).2.2
      "w2" "m2" none 401 "w3" "m3" none 402 rfl

/-- Counterexample to C5 as stated: a wrapper whose cause is a foreign
(non-wrapper) error, where Dig does not return the wrapper itself but the
wrapper nested inside the foreign cause, because errors.As digs through
any error that unwraps. -/
theorem dig_foreign_cause_cex :
    GoError.isWrapper (.foreign "mid" (.wrapper "inner" "m2" none 400 .nil))
      = false ∧
    (ErrorWrapper.mk "outer" "m1" none 500
        (.foreign "mid" (.wrapper "inner" "m2" none 400 .nil))).Dig
      = ErrorWrapper.mk "inner" "m2" none 400 .nil ∧
    (ErrorWrapper.mk "outer" "m1" none 500
        (.foreign "mid" (.wrapper "inner" "m2" none 400 .nil))).Dig
      ≠ ErrorWrapper.mk "outer" "m1" none 500
          (.foreign "mid" (.wrapper "inner" "m2" none 400 .nil)) := by
  have hd : (ErrorWrapper.mk "outer" "m1" none 500
      (.foreign "mid" (.wrapper "inner" "m2" none 400 .nil))).Dig
      = ErrorWrapper.mk "inner" "m2" none 400 .nil := by
    rw [ErrorWrapper.Dig_some
      ⟨"outer", "m1", none, 500, .foreign "mid" (.wrapper "inner" "m2" none 400 .nil)⟩
      ⟨"inner", "m2", none, 400, .nil⟩ rfl]
    exact ErrorWrapper.Dig_none _ rfl
  refine ⟨rfl, hd, ?_⟩
  rw [hd]
  decide

theorem digFuel_eq_dig (n : Nat) (w : ErrorWrapper) (h : w.Err.size < n) :
    digFuel n w = some w.Dig := by
  induction n generalizing w with
  | zero => omega
  | succ n ih =>
    cases he : errorsAs w.Err with
    | none =>
      rw [digFuel, he, w.Dig_none he]
    | some ew =>
      have hs := errorsAs_size _ _ he
      rw [digFuel, he]
      show digFuel n ew = some w.Dig
      rw [ih ew (by omega), w.Dig_some ew he]

/-- C8 amended: Dig terminates on every wrapper, within a number of steps
bounded by the length of the cause chain; in the terminal cases of no
cause at all, or of a cause whose unwrap chain holds no wrapper, it
returns the wrapper itself. Cause chains in the model are values of an
inductive type, hence finite and acyclic by construction, which is the
documented unchecked precondition of the source. -/
theorem dig_terminates (w : ErrorWrapper) :
    digFuel (w.Err.size + 1) w = some w.Dig ∧
    (w.Err = .nil → w.Dig = w) ∧
    ((w.Err.chain.all fun x => ! x.isWrapper) = true → w.Dig = w) := by
  refine ⟨digFuel_eq_dig _ w (Nat.lt_succ_self _), ?_, ?_⟩
  · intro h
    exact w.Dig_none (by rw [h]; rfl)
  · intro hall
    exact w.Dig_none (errorsAs_eq_none_of_no_wrapper _ hall)

/-- Witness for the amended C8 at concrete inputs. -/
theorem dig_terminates_witness :
    digFuel 2 (ErrorWrapper.mk "a" "m" none 500 (.foreign "io" .nil))
      = some ((ErrorWrapper.mk "a" "m" none 500 (.foreign "io" .nil)).Dig) ∧
    (ErrorWrapper.mk "a" "m" none 500 .nil).Dig
      = ErrorWrapper.mk "a" "m" none 500 .nil ∧
    (ErrorWrapper.mk "a" "m" none 500 (.foreign "io" .nil)).Dig
      = ErrorWrapper.mk "a" "m" none 500 (.foreign "io" .nil) := by
  refine ⟨(dig_terminates ⟨"a", "m", none, 500, .foreign "io" .nil⟩).1, ?_, ?_⟩
  · exact (dig_terminates ⟨"a", "m", none, 500, .nil⟩).2.1 rfl
  · exact (dig_terminates ⟨"a", "m", none, 500, .foreign "io" .nil⟩).2.2 (by decide)

/-- Counterexample to C8 as stated: a wrapper whose cause is not a
wrapper, on which Dig does not return the wrapper itself, because the
foreign cause unwraps to a nested wrapper. -/
theorem dig_nonwrapper_cause_cex :
    GoError.isWrapper (.foreign "net" (.wrapper "deep" "dm" none 404 .nil))
      = false ∧
    (ErrorWrapper.mk "top" "tm" none 500
        (.foreign "net" (.wrapper "deep" "dm" none 404 .nil))).Dig
      ≠ ErrorWrapper.mk "top" "tm" none 500
          (.foreign "net" (.wrapper "deep" "dm" none 404 .nil)) := by
  have hd : (ErrorWrapper.mk "top" "tm" none 500
      (.foreign "net" (.wrapper "deep" "dm" none 404 .nil))).Dig
      = ErrorWrapper.mk "deep" "dm" none 404 .nil := by
    rw [ErrorWrapper.Dig_some
      ⟨"top", "tm", none, 500, .foreign "net" (.wrapper "deep" "dm" none 404 .nil)⟩
      ⟨"deep", "dm", none, 404, .nil⟩ rfl]
    exact ErrorWrapper.Dig_none _ rfl
  refine ⟨rfl, ?_⟩
  rw [hd]
  decide

theorem errorsAs_of_chain_find (e : GoError) (w : ErrorWrapper)
    (h : e.chain.find? GoError.isWrapper = some (GoError.ofWrapper w)) :
    errorsAs e = some w := by
  induction e with
  | nil => simp [GoError.chain] at h
  | wrapper a m p c err ih =>
    rw [GoError.chain, List.find?_cons_of_pos _ rfl] at h
    cases w with
    | mk wa wm wp wc we =>
      simp [GoError.ofWrapper] at h
      obtain ⟨h1, h2, h3, h4, h5⟩ := h
      subst h1; subst h2; subst h3; subst h4; subst h5
      rfl
  | foreign s c ih =>
    rw [GoError.chain, List.find?_cons_of_neg _ (by simp [GoError.isWrapper])] at h
    exact ih h

/-- C1: on an error in whose unwrap chain an ErrorWrapper occurs,
DecodeError returns the wrapper found there (the first of the chain)
unchanged, with every field preserved; on an error whose chain holds no
wrapper, it returns the generic fallback: action generic, message the
rendered string of the error, code 500, cause the error, nil payload. The
nil interface value is excluded: the Go fallback branch calls the Error
method of the argument, which panics on nil. -/
theorem decodeError_spec (e : GoError) (_hnn : e ≠ .nil) :
    (e.chain.any GoError.isWrapper = true →
      ∃ w : ErrorWrapper,
        e.chain.find? GoError.isWrapper = some (GoError.ofWrapper w) ∧
        DecodeError e = w) ∧
    (∀ w : ErrorWrapper,
      e.chain.find? GoError.isWrapper = some (GoError.ofWrapper w) →
      DecodeError e = w) ∧
    ((e.chain.all fun x => ! x.isWrapper) = true →
      (DecodeError e).Action = "generic" ∧
      (DecodeError e).Message = e.Error ∧
      (DecodeError e).Code = 500 ∧
      (DecodeError e).Err = e ∧
      (DecodeError e).Payload = none) := by
  have hmain : ∀ w : ErrorWrapper,
      e.chain.find? GoError.isWrapper = some (GoError.ofWrapper w) →
      DecodeError e = w := by
    intro w hw
    have ha := errorsAs_of_chain_find e w hw
    simp [DecodeError, ha]
  refine ⟨?_, hmain, ?_⟩
  · intro hany
    have hsome : (e.chain.find? GoError.isWrapper).isSome := by
      rw [List.find?_isSome]
      simpa using List.any_eq_true.1 hany
    obtain ⟨x, hx⟩ := Option.isSome_iff_exists.1 hsome
    have hpx : GoError.isWrapper x = true := List.find?_some hx
    cases x with
    | nil => simp [GoError.isWrapper] at hpx
    | foreign s c => simp [GoError.isWrapper] at hpx
    | wrapper a m p c err =>
      exact ⟨⟨a, m, p, c, err⟩, hx, hmain ⟨a, m, p, c, err⟩ hx⟩
  · intro hall
    have hn : errorsAs e = none := errorsAs_eq_none_of_no_wrapper e hall
    have hd : DecodeError e = ⟨"generic", e.Error, none, 500, e⟩ := by
      unfold DecodeError
      rw [hn]
    rw [hd]
    exact ⟨rfl, rfl, rfl, rfl, rfl⟩

/-- Witness for C1 at concrete inputs: a wrapper at the head of the chain
is returned unchanged, and a plain foreign error is coerced to the
generic fallback. -/
theorem decodeError_spec_witness :
    DecodeError (.wrapper "a" "m" none 403 .nil)
      = ErrorWrapper.mk "a" "m" none 403 .nil ∧
    (DecodeError (.foreign "boom" .nil)).Action = "generic" ∧
    (DecodeError (.foreign "boom" .nil)).Message = "boom" ∧
    (DecodeError (.foreign "boom" .nil)).Code = 500 ∧
    (DecodeError (.foreign "boom" .nil)).Err = .foreign "boom" .nil ∧
    (DecodeError (.foreign "boom" .nil)).Payload = none := by
  have h1 := (decodeError_spec (.wrapper "a" "m" none 403 .nil) (by decide)).2.1
    ⟨"a", "m", none, 403, .nil⟩ rfl
  have h2 := (decodeError_spec (.foreign "boom" .nil) (by decide)).2.2 (by decide)
  exact ⟨h1, h2.1, h2.2.1, h2.2.2.1, h2.2.2.2.1, h2.2.2.2.2⟩
